import Mathlib

/-!
# Verification of the `asr_backend` normalization / adapter core

Shallow embedding, in Lean 4, of the parts of the `asr_ui` Python package
that the specification's claims are about:

* `asr_ui/models/qwen3.py` — the multi-candidate retry adapter
  (`Qwen3Model.transcribe`, `normalize_lang_code`);
* `asr_ui/core/audio_utils.py` — the audio normalizer
  (`convert_to_wav_bytes`, `wav_bytes_from_array`);
* `asr_ui/models/omni_lingual.py`, `asr_ui/models/chunkformer.py`,
  `asr_ui/models/whisper_jax.py` — the remaining adapters;
* `asr_ui/models/__init__.py` and `asr_ui/api/main.py` — the model
  registry and its request-level cache.

External effects (HTTP responses, library decoders, the ffmpeg subprocess,
environment variables, Python object construction) are modelled as explicit
oracle/environment parameters; the Lean functions mirror the Python control
flow over those oracles and additionally return a log of the external
attempts made, so that ordering and never-called properties are provable.
-/

namespace AsrUI

/-! ## Python string primitives

Structural (kernel-reducible) models of the Python `str` methods the code
uses: `.strip()`, `.lower()`, `in`, `.split("_", 1)[0]`. -/

/-- Python `s.strip()`: drop whitespace from both ends. -/
def pyStrip (s : String) : String :=
  ⟨((s.data.dropWhile Char.isWhitespace).reverse.dropWhile Char.isWhitespace).reverse⟩

/-- Python `s.lower()` (ASCII case folding, which is all the code relies on). -/
def pyLower (s : String) : String :=
  ⟨s.data.map Char.toLower⟩

/-- Python `c in s` for a single character `c`. -/
def pyContainsChar (s : String) (c : Char) : Bool :=
  s.data.contains c

/-- Python `s.split(sep, 1)[0]` for a single-character separator: the prefix
of `s` before the first occurrence of `c` (`s` itself when `c` is absent). -/
def pySplitHead (s : String) (c : Char) : String :=
  ⟨s.data.takeWhile (fun d => d != c)⟩

/-! ## Language-code normalization (`normalize_lang_code` in `qwen3.py`) -/

/-- The fixed ISO2→ISO3 table inside `normalize_lang_code` (qwen3.py lines 94-108). -/
def iso2_to_iso3 : List (String × String) :=
  [("en", "eng"), ("vi", "vie"), ("fr", "fra"), ("de", "deu"), ("es", "spa"),
   ("it", "ita"), ("pt", "por"), ("ru", "rus"), ("ja", "jpn"), ("ko", "kor"),
   ("zh", "cmn"), ("ar", "ara"), ("hi", "hin")]

/-- Embedding of `normalize_lang_code` (qwen3.py lines 87-118):
`None`/empty → `None`; strip; two-letter table lookup on the lowercased code;
otherwise drop a `_Script` suffix; otherwise pass through. -/
def normalize_lang_code (lang : Option String) : Option String :=
  match lang with
  | none => none
  | some l0 =>
    if l0 = "" then none          -- `if not lang: return None`
    else
      let l := pyStrip l0         -- `lang = (lang or "").strip()`
      if l = "" then none
      else
        let lower := pyLower l
        match iso2_to_iso3.lookup lower with
        | some iso3 => some iso3
        | none =>
          if pyContainsChar l '_' then some (pySplitHead l '_')
          else some l

/-! ## HTTP response model and the Qwen3 candidate sweep (`qwen3.py` lines 198-243)

The HTTP client is an oracle `Option String → String → Resp` giving the
response the provider would return for a given `lang_code` form value and
endpoint URL. The loop embeddings additionally return the list of
`(lang_code, url)` requests issued, in order, so request counts and ordering
are provable. -/

structure Resp where
  status : Nat
  body : String
deriving DecidableEq

/-- The statuses treated as recordable client errors (qwen3.py line 224). -/
def isClientErrorStatus (s : Nat) : Bool :=
  s == 400 || s == 404 || s == 405 || s == 422

/-- The `f"API request failed with status {...}: {...}"` message (qwen3.py
lines 229-231, 242-243). -/
def apiFailMsg (status : Nat) (body : String) : String :=
  s!"API request failed with status {status}: {body}"

/-- `response is not None and response.status_code == 200` (qwen3.py line 233). -/
def respIs200 : Option Resp → Bool
  | none => false
  | some r => r.status == 200

/-- The inner `for url in candidates` loop (qwen3.py lines 209-231), run with a
fixed `lang_code`. State threaded exactly as in the Python: the most recent
`response` and `last_error`. Returns the requests issued and either the raised
error or the `(response, last_error)` pair the loop ends with. -/
def runInner (oracle : Option String → String → Resp) (lang : Option String) :
    List String → Option String → Option Resp →
    List (Option String × String) × Except String (Option Resp × Option String)
  | [], lastError, resp => ([], .ok (resp, lastError))
  | url :: rest, lastError, resp =>
    let r := oracle lang url
    if r.status == 200 then
      ([(lang, url)], .ok (some r, lastError))
    else if isClientErrorStatus r.status then
      let (log, out) := runInner oracle lang rest (some r.body) (some r)
      ((lang, url) :: log, out)
    else
      ([(lang, url)], .error (apiFailMsg r.status r.body))

/-- The outer `for lang_code in all_langs` loop (qwen3.py lines 203-234),
breaking as soon as the inner loop ends on a 200 response. -/
def runOuter (oracle : Option String → String → Resp) (urls : List String) :
    List (Option String) → Option String → Option Resp →
    List (Option String × String) × Except String (Option Resp × Option String)
  | [], lastError, resp => ([], .ok (resp, lastError))
  | lang :: rest, lastError, resp =>
    match runInner oracle lang urls lastError resp with
    | (log, .error m) => (log, .error m)
    | (log, .ok (resp2, lastError2)) =>
      if respIs200 resp2 then (log, .ok (resp2, lastError2))
      else
        let (log2, out2) := runOuter oracle urls rest lastError2 resp2
        (log ++ log2, out2)

/-- Embedding of the whole sweep and its post-loop error handling (qwen3.py
lines 198-243): `all_langs = lang_candidates if lang_candidates else [None]`;
run the nested loops; `response is None` → "No endpoint configured"; a final
non-200 response surfaces `last_error` when recorded, else the raw body. -/
def qwenSweep (oracle : Option String → String → Resp)
    (lang_candidates urls : List String) :
    List (Option String × String) × Except String Resp :=
  let all_langs : List (Option String) :=
    if lang_candidates.isEmpty then [none] else lang_candidates.map some
  match runOuter oracle urls all_langs none none with
  | (log, .error m) => (log, .error m)
  | (log, .ok (resp2, lastError)) =>
    match resp2 with
    | none => (log, .error "No endpoint configured")
    | some r =>
      if r.status == 200 then (log, .ok r)
      else
        match lastError with
        | some le => (log, .error (apiFailMsg r.status le))
        | none => (log, .error (apiFailMsg r.status r.body))

/-- Modelled from the spec: the candidate sweep described as ONE flat ordered
pass over `(language, endpoint)` pairs — first HTTP 200 stops the sweep; a
400/404/405/422 response is recorded as the last client error and the sweep
continues; any other non-200 status aborts immediately. -/
def sweepFlatGo (oracle : Option String → String → Resp) :
    List (Option String × String) → Option String → Option Resp →
    List (Option String × String) × Except String (Option Resp × Option String)
  | [], lastError, resp => ([], .ok (resp, lastError))
  | (lang, url) :: rest, lastError, resp =>
    let r := oracle lang url
    if r.status == 200 then
      ([(lang, url)], .ok (some r, lastError))
    else if isClientErrorStatus r.status then
      let (log, out) := sweepFlatGo oracle rest (some r.body) (some r)
      ((lang, url) :: log, out)
    else
      ([(lang, url)], .error (apiFailMsg r.status r.body))

/-- All `(language, endpoint)` pairs in declared order: language candidates
outer, endpoint candidates inner. -/
def allPairs (langs : List (Option String)) (urls : List String) :
    List (Option String × String) :=
  langs.flatMap fun lang => urls.map fun url => (lang, url)

/-- Modelled from the spec: the whole sweep as the flat pass over `allPairs`
followed by the documented no-200 error surfacing. -/
def qwenSweepSpec (oracle : Option String → String → Resp)
    (lang_candidates urls : List String) :
    List (Option String × String) × Except String Resp :=
  let all_langs : List (Option String) :=
    if lang_candidates.isEmpty then [none] else lang_candidates.map some
  match sweepFlatGo oracle (allPairs all_langs urls) none none with
  | (log, .error m) => (log, .error m)
  | (log, .ok (resp2, lastError)) =>
    match resp2 with
    | none => (log, .error "No endpoint configured")
    | some r =>
      if r.status == 200 then (log, .ok r)
      else
        match lastError with
        | some le => (log, .error (apiFailMsg r.status le))
        | none => (log, .error (apiFailMsg r.status r.body))

/-! ## Audio normalizer (`audio_utils.py`)

The decoded sample arrays of the two in-process decoders are modelled as
rational matrices: a 1-D array is a flat sample list, a 2-D array a list of
rows (for `soundfile`, a row is one frame holding one sample per channel).
The `wave`-module writer is modelled at the level of the header fields the
code sets. Decoders and the ffmpeg subprocess are an environment of
fallible oracles over the raw input bytes; the convert function returns the
list of strategies actually attempted, in order. -/

/-- A numpy array as the code sees it: 1-D (`len(shape) == 1`) or 2-D. -/
inductive NpArray
  | oneD (samples : List ℚ)
  | twoD (rows : List (List ℚ))
deriving DecidableEq

/-- Mean of one row of a 2-D array. -/
def rowMean (row : List ℚ) : ℚ :=
  row.sum / row.length

/-- `np.mean(audio_array, axis=1)` on a 2-D array: one mean per row. -/
def npMeanAxis1 (rows : List (List ℚ)) : List ℚ :=
  rows.map rowMean

/-- `if len(audio_array.shape) > 1: audio_array = np.mean(audio_array, axis=1)`
(audio_utils.py lines 73-74). -/
def collapseMono : NpArray → List ℚ
  | .oneD samples => samples
  | .twoD rows => npMeanAxis1 rows

/-- Truncation toward zero, as numpy `astype` does for float→int. -/
def truncToZero (q : ℚ) : ℤ :=
  if 0 ≤ q then ⌊q⌋ else ⌈q⌉

/-- Reduction of an integer into int16 range by wrap-around, as numpy
`astype(np.int16)` does for out-of-range values. -/
def int16wrap (n : ℤ) : ℤ :=
  (n + 32768) % 65536 - 32768

/-- `(audio_array * 32767).astype(np.int16)` (audio_utils.py line 77). -/
def astype_int16 (xs : List ℚ) : List ℤ :=
  xs.map fun q => int16wrap (truncToZero (q * 32767))

/-- The WAV container at the level of what `wave.open(..., "wb")` is told:
header fields plus the frame data. -/
structure WavFile where
  nchannels : Nat
  sampwidth : Nat
  framerate : Nat
  samples : List ℤ
deriving DecidableEq

/-- Embedding of `wav_bytes_from_array` (audio_utils.py lines 26-33):
`setnchannels(1)`, `setsampwidth(2)`, `setframerate(sr)`, then the int16
samples as the data chunk. -/
def wav_bytes_from_array (x_int16 : List ℤ) (sr : Nat) : WavFile :=
  { nchannels := 1, sampwidth := 2, framerate := sr, samples := x_int16 }

/-- The post-decode normalization applied after a stage-1/stage-2 decode
(audio_utils.py lines 72-80): mono collapse, int16 conversion, WAV encode. -/
def postDecode (arr : NpArray) (sample_rate : Nat) : WavFile :=
  wav_bytes_from_array (astype_int16 (collapseMono arr)) sample_rate

/-- The three decode strategies of `convert_to_wav_bytes`, in declared order. -/
inductive Strategy
  | soundfileS
  | librosaS
  | ffmpegS
deriving DecidableEq

/-- The decode environment for one input: the `soundfile` and `librosa`
decoders (returning array + native sample rate) and the ffmpeg subprocess
transcoder (returning finished WAV bytes), each fallible; plus the
`sf is None or librosa is None` availability guard. -/
structure DecodeEnv where
  sfAvailable : Bool
  sfRead : List Nat → Except String (NpArray × Nat)
  librosaLoad : List Nat → Except String (NpArray × Nat)
  ffmpegRun : List Nat → Except String WavFile

/-- The `f"Failed to convert audio format. ..."` message raised when all
three strategies have failed (audio_utils.py lines 65-70). -/
def convFailMsg (e1 e2 e3 : String) : String :=
  s!"Failed to convert audio format. soundfile error: {e1}, librosa error: {e2}, ffmpeg error: {e3}"

/-- Embedding of `convert_to_wav_bytes` (audio_utils.py lines 36-80):
soundfile first; on failure librosa; on failure the ffmpeg subprocess; when
all three raise, fail with the combined message. Also returns the list of
strategies attempted, in order. -/
def convert_to_wav_bytes (env : DecodeEnv) (audio_bytes : List Nat) :
    List Strategy × Except String WavFile :=
  if ¬ env.sfAvailable then
    ([], .error "soundfile and librosa are required for audio format conversion")
  else
    match env.sfRead audio_bytes with
    | .ok (arr, sample_rate) => ([.soundfileS], .ok (postDecode arr sample_rate))
    | .error e1 =>
      match env.librosaLoad audio_bytes with
      | .ok (arr, sample_rate) =>
        ([.soundfileS, .librosaS], .ok (postDecode arr sample_rate))
      | .error e2 =>
        match env.ffmpegRun audio_bytes with
        | .ok wav => ([.soundfileS, .librosaS, .ffmpegS], .ok wav)
        | .error e3 =>
          ([.soundfileS, .librosaS, .ffmpegS], .error (convFailMsg e1 e2 e3))

/-- The slice of `transcribe_upload` (main.py lines 172-212) downstream of a
successfully resolved adapter: read contents, reject empty uploads with
HTTP 400 before calling the adapter, otherwise call the adapter and map an
adapter failure to HTTP 500. `α` is the adapter's type of logged external
attempts. -/
def transcribe_upload_model {α : Type} (contents : List Nat)
    (adapter : List Nat → List α × Except String String) :
    List α × Except (Nat × String) String :=
  if contents.length == 0 then
    ([], .error (400, "Uploaded file is empty"))
  else
    match adapter contents with
    | (log, .ok text) => (log, .ok text)
    | (log, .error e) => (log, .error (500, s!"Transcription failed: {e}"))

/-! ## JSON bodies and response parsing

`response.json()` results are JSON objects: fields in encounter order
(Python dicts preserve insertion order). -/

inductive JVal
  | jstr (s : String)
  | jnum (n : Int)
  | jbool (b : Bool)
  | jnull
deriving DecidableEq

/-- A decoded JSON object body. -/
abbrev JObj := List (String × JVal)

/-- Python `str(value)` rendering of a JSON value as it appears in f-string
diagnostics. -/
def jvalRepr : JVal → String
  | .jstr s => s!"'{s}'"
  | .jnum n => toString n
  | .jbool true => "True"
  | .jbool false => "False"
  | .jnull => "None"

/-- Python `repr` of a decoded dict, used when a body is interpolated into an
error f-string. -/
def jobjRepr (obj : JObj) : String :=
  "\x7b" ++ String.intercalate ", " (obj.map fun kv => s!"'{kv.1}': " ++ jvalRepr kv.2) ++ "\x7d"

/-- The in-order scan `for key, value in result.items(): if isinstance(value,
str) and len(value) > 0: return value.strip()` (omni_lingual.py lines 136-139,
qwen3.py lines 254-257). -/
def scanFirstString : JObj → Option String
  | [] => none
  | (_, v) :: rest =>
    match v with
    | .jstr s => if s.length > 0 then some (pyStrip s) else scanFirstString rest
    | _ => scanFirstString rest

/-- The `No text field found in response: ...` failure carrying the full
decoded body (omni_lingual.py line 140, qwen3.py line 258). -/
def noTextMsg (result : JObj) : String :=
  "No text field found in response: " ++ jobjRepr result

/-- The shared response parsing of the OmniLingual and Qwen3 adapters
(omni_lingual.py lines 129-140, qwen3.py lines 248-258): prefer the `text`
field (`.strip()` on a non-string raises); otherwise return the first
non-empty string-typed value in encounter order, stripped; otherwise fail
with the body-carrying message. -/
def extractTextOmniQwen (result : JObj) : Except String String :=
  match result.lookup "text" with
  | some (.jstr s) => .ok (pyStrip s)
  | some _ => .error "AttributeError: strip"
  | none =>
    match scanFirstString result with
    | some s => .ok s
    | none => .error (noTextMsg result)

/-- Python `str(value)` of a JSON value, as an f-string interpolates a single
value (no repr quotes around strings, unlike `jvalRepr`). -/
def jvalStr : JVal → String
  | .jstr s => s
  | .jnum n => toString n
  | .jbool true => "True"
  | .jbool false => "False"
  | .jnull => "None"

/-- The `f"API error: {result.get('message', 'Unknown error')}"` message
(chunkformer.py line 94): the `message` value str-rendered, defaulting to
`Unknown error`. -/
def chunkErrMsg (result : JObj) : String :=
  "API error: " ++ (match result.lookup "message" with
    | some v => jvalStr v
    | none => "Unknown error")

/-- The Chunkformer response parsing (chunkformer.py lines 93-98): raise when
`result.get("status") == "error"`, otherwise `result.get('text', '').strip()`
— the `text` field with an empty-string default, never a scan or a
missing-field failure. -/
def chunkformerParse (result : JObj) : Except String String :=
  if result.lookup "status" = some (.jstr "error") then
    .error (chunkErrMsg result)
  else
    match result.lookup "text" with
    | some (.jstr s) => .ok (pyStrip s)
    | some _ => .error "AttributeError: strip"
    | none => .ok (pyStrip "")

/-! ## Adapter transcribe pipelines

Each adapter's `transcribe` is embedded over an HTTP oracle
`http : HttpReq → Resp` and a JSON-decode oracle
`json : String → Option JObj`, and returns the list of HTTP requests it
issued together with its result. Raised Python exceptions are `.error`
values carrying the exception message (the outer
`raise Exception(f"Transcription failed: {e}")` re-wrap is applied where
the source applies it). -/

/-- One `requests.post` call: target URL, the `timeout=` argument
(`none` models `timeout=None`), and the form-data fields. -/
structure HttpReq where
  url : String
  timeoutSec : Option Nat
  form : List (String × String)
deriving DecidableEq

/-- The `f"Transcription failed: {e}"` re-wrap every adapter's outer
`except` applies. -/
def transcribeFailMsg (e : String) : String :=
  s!"Transcription failed: {e}"

/-- Embedding of `WhisperJAXModel.transcribe` (whisper_jax.py lines 14-50):
no task check (both tasks forwarded), form data with `task`,
`return_timestamps`, optional `language` (when truthy) and the optional
tuning parameters (already string-encoded), POST with `timeout=None`,
`raise_for_status`, then `(result.get("text") or "").strip()` — modelled for
bodies whose `text` value, when present, is a string. -/
def whisperTranscribe (http : HttpReq → Resp) (json : String → Option JObj)
    (endpoint : String) (audio_bytes : List Nat) (task : String)
    (language : Option String) (extraParams : List (String × String)) :
    List HttpReq × Except String String :=
  let form := [("task", task), ("return_timestamps", "false")] ++
    (match language with
      | some l => if l = "" then [] else [("language", l)]
      | none => []) ++ extraParams
  let req : HttpReq := { url := endpoint, timeoutSec := none, form := form }
  let resp := http req
  if 400 ≤ resp.status then
    ([req], .error (transcribeFailMsg (apiFailMsg resp.status resp.body)))
  else
    match json resp.body with
    | none => ([req], .error (transcribeFailMsg "response.json() failed"))
    | some result =>
      match result.lookup "text" with
      | some (.jstr s) => ([req], .ok (pyStrip s))
      | _ => ([req], .ok "")

/-- Embedding of `ChunkformerModel.transcribe` (chunkformer.py lines 23-102):
reject any non-"transcribe" task before anything else; convert the audio to
WAV (wrapping a conversion failure); POST once with `timeout=120`; non-200 →
provider error; then `chunkformerParse`. -/
def chunkformerTranscribe (denv : DecodeEnv) (http : HttpReq → Resp)
    (json : String → Option JObj) (endpoint : String)
    (audio_bytes : List Nat) (task : String) (return_timestamps : Bool) :
    List HttpReq × Except String String :=
  if task ≠ "transcribe" then
    ([], .error "Chunkformer API only supports transcription, not translation")
  else
    match (convert_to_wav_bytes denv audio_bytes).2 with
    | .error e => ([], .error (s!"Audio format conversion failed: {e}"))
    | .ok _wav =>
      let req : HttpReq :=
        ⟨endpoint, some 120, [("return_timestamps", if return_timestamps then "true" else "false")]⟩
      let resp := http req
      if resp.status ≠ 200 then
        ([req], .error (transcribeFailMsg (apiFailMsg resp.status resp.body)))
      else
        match json resp.body with
        | none => ([req], .error (transcribeFailMsg "response.json() failed"))
        | some result =>
          ([req], (chunkformerParse result).mapError transcribeFailMsg)

/-- Embedding of `OmniLingualAPIModel.transcribe` (omni_lingual.py lines
45-144): reject any non-"transcribe" task before anything else; send the
original bytes (no re-normalization) with `lang_code` defaulting to
`eng_Latn`, POST once with `timeout=60`; non-200 → provider error; then the
shared text extraction. -/
def omniTranscribe (http : HttpReq → Resp) (json : String → Option JObj)
    (endpoint : String) (audio_bytes : List Nat) (task : String)
    (language : Option String) :
    List HttpReq × Except String String :=
  if task ≠ "transcribe" then
    ([], .error "OmniLingual API only supports transcription, not translation")
  else
    let lang := match language with
      | some l => if l = "" then "eng_Latn" else l
      | none => "eng_Latn"
    let req : HttpReq := ⟨endpoint, some 60, [("lang_code", lang)]⟩
    let resp := http req
    if resp.status ≠ 200 then
      ([req], .error (transcribeFailMsg (apiFailMsg resp.status resp.body)))
    else
      match json resp.body with
      | none => ([req], .error (transcribeFailMsg "response.json() failed"))
      | some result =>
        ([req], (extractTextOmniQwen result).mapError transcribeFailMsg)

/-- `candidate_lang_codes` (qwen3.py lines 120-149): the normalized code,
then its English name when the small name map has one, deduplicated in
first-seen order. -/
def candidate_lang_codes (lang : Option String) : List String :=
  match normalize_lang_code lang with
  | none => []
  | some normalized =>
    let candidates : List String := [normalized]
    let name_map : List (String × String) :=
      [("eng", "English"), ("en", "English"), ("vie", "Vietnamese"), ("vi", "Vietnamese")]
    let candidates := match name_map.lookup (pyLower normalized) with
      | some nm => if nm ∈ candidates then candidates else candidates ++ [nm]
      | none => candidates
    if normalized ∈ candidates then candidates else candidates ++ [normalized]

/-- The `data` form fields of one Qwen3 request for a given `lang_code`
candidate (qwen3.py lines 203-207). -/
def qwenForm : Option String → List (String × String)
  | some l => [("lang_code", l)]
  | none => []

/-- Embedding of `Qwen3Model.transcribe` (qwen3.py lines 45-262): reject any
non-"transcribe" task before anything else; convert the audio to WAV
(wrapping a conversion failure); run the candidate sweep (each POST issued
with `timeout=120`) over the language candidates and the endpoint-URL
candidate list (built at lines 174-196 from the configured endpoint, taken
here as the parameter `urls`); then the shared text extraction. All raised
errors are re-wrapped as `Transcription failed: ...`. -/
def qwenTranscribe (denv : DecodeEnv) (http : HttpReq → Resp)
    (json : String → Option JObj) (urls : List String)
    (audio_bytes : List Nat) (task : String) (language : Option String) :
    List HttpReq × Except String String :=
  if task ≠ "transcribe" then
    ([], .error "Qwen3 API only supports transcription, not translation")
  else
    match (convert_to_wav_bytes denv audio_bytes).2 with
    | .error e => ([], .error (s!"Audio format conversion failed: {e}"))
    | .ok _wav =>
      let oracle : Option String → String → Resp := fun lang url =>
        http { url := url, timeoutSec := some 120, form := qwenForm lang }
      let (pairs, out) := qwenSweep oracle (candidate_lang_codes language) urls
      let reqs := pairs.map fun p =>
        { url := p.2, timeoutSec := some 120, form := qwenForm p.1 }
      match out with
      | .error m => (reqs, .error (transcribeFailMsg m))
      | .ok r =>
        match json r.body with
        | none => (reqs, .error (transcribeFailMsg "response.json() failed"))
        | some result =>
          (reqs, (extractTextOmniQwen result).mapError transcribeFailMsg)

/-! ## Model registry and request-level cache -/

/-- An adapter instance as constructed by the registry: its class, the
endpoint/credential it was constructed with, and a construction sequence
number distinguishing instances. -/
structure AdapterInstance where
  className : String
  endpoint : String
  apiKey : Option String
  instId : Nat
deriving DecidableEq

/-- `MODEL_REGISTRY` (models/__init__.py lines 7-13): logical name → adapter
class. -/
def MODEL_REGISTRY : List (String × String) :=
  [("whisper_jax", "WhisperJAXModel"),
   ("omni_lingual", "OmniLingualAPIModel"),
   ("chunkformer", "ChunkformerModel"),
   ("qwen3_1_7B", "Qwen3Model"),
   ("qwen3_0_6B", "Qwen3Model")]

/-- Python `repr` of a list of strings, as interpolated into the unknown-model
message. -/
def pyListRepr (xs : List String) : String :=
  "[" ++ String.intercalate ", " (xs.map fun s => s!"'{s}'") ++ "]"

/-- The `f"Model '{model_name}' not found. Available models: {available}"`
message (models/__init__.py lines 30-31). -/
def unknownModelMsg (name : String) : String :=
  "Model '" ++ name ++ "' not found. Available models: " ++
    pyListRepr (MODEL_REGISTRY.map Prod.fst)

/-- The construction environment: Python class construction may raise; the
oracle gives the raised message per class, `none` meaning construction
succeeds. -/
structure CtorEnv where
  ctorFail : String → Option String

/-- Embedding of `get_model` (models/__init__.py lines 15-34): registry
lookup, `UnknownModel` error listing the registered names, then
`model_class(**kwargs)` construction (fallible via the oracle), stamping the
fresh instance with the next sequence number. -/
def get_model (cenv : CtorEnv) (name : String) (endpoint : String)
    (apiKey : Option String) (nextId : Nat) : Except String AdapterInstance :=
  match MODEL_REGISTRY.lookup name with
  | none => .error (unknownModelMsg name)
  | some cls =>
    match cenv.ctorFail cls with
    | some msg => .error msg
    | none => .ok ⟨cls, endpoint, apiKey, nextId⟩

/-- The configuration lookup `os.getenv(name, default)`. -/
structure Getenv where
  lookupEnv : String → Option String

/-- `os.getenv(key, dflt)`. -/
def envOr (g : Getenv) (key dflt : String) : String :=
  (g.lookupEnv key).getD dflt

/-- The process state of `main.py`: the `model_cache` dict plus the next
construction sequence number. -/
structure RegistryState where
  cache : List (String × AdapterInstance)
  nextId : Nat
deriving DecidableEq

/-- The name dispatch inside the `try` of `get_model_for_request` (main.py
lines 78-98): per-name endpoint/credential from the environment with the
documented defaults; unregistered names reach the final
`get_model(model_name)` call with no keyword arguments. -/
def constructFor (g : Getenv) (cenv : CtorEnv) (name : String) (nextId : Nat) :
    Except String AdapterInstance :=
  if name = "whisper_jax" then
    get_model cenv name
      (envOr g "WHISPER_ENDPOINT" "http://35.186.40.29:8008/transcribe")
      none nextId
  else if name = "omni_lingual" then
    get_model cenv name
      (envOr g "OMNILINGUAL_ENDPOINT" "http://hanoi2.ucd.ie/asr_omnilingual")
      (some (envOr g "OMNILINGUAL_API_KEY" "")) nextId
  else if name = "chunkformer" then
    get_model cenv name
      (envOr g "CHUNKFORMER_ENDPOINT" "http://hanoi2.ucd.ie/asr_chunkformer")
      (some (envOr g "CHUNKFORMER_API_KEY" "")) nextId
  else if name = "qwen3_1_7B" then
    get_model cenv name
      (envOr g "QWEN3_1_7B_ENDPOINT" "http://hanoi2.ucd.ie/asr_q3_1_7B")
      (some (envOr g "QWEN3_1_7B_API_KEY" "AIRRVie_api_key")) nextId
  else if name = "qwen3_0_6B" then
    get_model cenv name
      (envOr g "QWEN3_0_6B_ENDPOINT" "http://hanoi2.ucd.ie/asr_q3_0_6B")
      (some (envOr g "QWEN3_0_6B_API_KEY" "AIRRVie_api_key")) nextId
  else
    get_model cenv name "" none nextId

/-- Embedding of `get_model_for_request` (main.py lines 72-104): cache hit
first; otherwise construct via the per-name dispatch, cache the instance
only on success (`model_cache[model_name] = model` runs after the
constructor returned), and propagate a construction error leaving the cache
unchanged. -/
def get_model_for_request (g : Getenv) (cenv : CtorEnv) (name : String)
    (st : RegistryState) : Except String AdapterInstance × RegistryState :=
  match st.cache.lookup name with
  | some m => (.ok m, st)
  | none =>
    match constructFor g cenv name st.nextId with
    | .ok m => (.ok m, { cache := st.cache ++ [(name, m)], nextId := st.nextId + 1 })
    | .error e => (.error e, st)

/-! ## Concrete instances used by witnesses and counterexamples -/

/-- A concrete oracle: first two endpoint candidates 404, third 200. -/
def oracle404x2 : Option String → String → Resp := fun _ url =>
  if url == "u1" then ⟨404, "e1"⟩
  else if url == "u2" then ⟨404, "e2"⟩
  else ⟨200, "okbody"⟩

/-- A concrete oracle: all three candidates client errors. -/
def oracleAllClient : Option String → String → Resp := fun _ url =>
  if url == "u1" then ⟨404, "e1"⟩
  else if url == "u2" then ⟨422, "e2"⟩
  else ⟨405, "e3"⟩

/-- A concrete oracle: 404 then a hard 500. -/
def oracleAbort : Option String → String → Resp := fun _ url =>
  if url == "u1" then ⟨404, "e1"⟩
  else if url == "u2" then ⟨500, "boom"⟩
  else ⟨200, "okbody"⟩

/-- A decode environment in which every strategy fails. -/
def envAllFail : DecodeEnv :=
  { sfAvailable := true
    sfRead := fun _ => .error "sf-fail"
    librosaLoad := fun _ => .error "lr-fail"
    ffmpegRun := fun _ => .error "ff-fail" }

/-- A decode environment in which soundfile succeeds with a concrete stereo
array at 16 kHz. -/
def envSfStereo : DecodeEnv :=
  { sfAvailable := true
    sfRead := fun _ => .ok (.twoD [[1/2, -1/2], [1, 0]], 16000)
    librosaLoad := fun _ => .error "lr-fail"
    ffmpegRun := fun _ => .error "ff-fail" }

/-- An HTTP oracle answering 200 with a fixed body. -/
def httpOk : HttpReq → Resp := fun _ => ⟨200, "resp-body"⟩

/-- A JSON-decode oracle that always fails. -/
def jsonNone : String → Option JObj := fun _ => none

/-- An empty environment-variable table. -/
def genvEmpty : Getenv := ⟨fun _ => none⟩

/-- A construction environment in which every constructor succeeds. -/
def cenvOk : CtorEnv := ⟨fun _ => none⟩

/-- A construction environment in which every constructor raises `"boom"`. -/
def cenvBoom : CtorEnv := ⟨fun _ => some "boom"⟩

/-- The initial registry state: empty cache. -/
def st0 : RegistryState := ⟨[], 0⟩

end AsrUI

/-! ## Theorems -/

namespace AsrUI

/-- **C7.** `normalize_lang_code` maps `"en"` to `"eng"` and `"eng_Latn"` to
`"eng"`; every two-letter code in the fixed ISO2→ISO3 table maps to its ISO-3
form; a code not in the table that contains an underscore is cut at its first
underscore (so `"xx_Yyyy"` normalizes to `"xx"`); any other (non-empty,
already-stripped) code passes through unchanged. -/
theorem C7_normalize_lang_code (l : String) (hne : l ≠ "") (htrim : pyStrip l = l) :
    normalize_lang_code (some "en") = some "eng" ∧
    normalize_lang_code (some "eng_Latn") = some "eng" ∧
    normalize_lang_code (some "xx_Yyyy") = some "xx" ∧
    (∀ iso3, iso2_to_iso3.lookup (pyLower l) = some iso3 →
        normalize_lang_code (some l) = some iso3) ∧
    (iso2_to_iso3.lookup (pyLower l) = none → pyContainsChar l '_' = true →
        normalize_lang_code (some l) = some (pySplitHead l '_')) ∧
    (iso2_to_iso3.lookup (pyLower l) = none → pyContainsChar l '_' = false →
        normalize_lang_code (some l) = some l) := by
  refine ⟨by decide, by decide, by decide, ?_, ?_, ?_⟩
  · intro iso3 hlook
    simp only [normalize_lang_code, if_neg hne, htrim, if_neg hne, hlook]
  · intro hlook hus
    simp only [normalize_lang_code, if_neg hne, htrim, if_neg hne, hlook, hus, if_pos]
  · intro hlook hus
    simp only [normalize_lang_code, if_neg hne, htrim, if_neg hne, hlook, hus,
      Bool.false_eq_true, if_false]

/-! ### C1 — the Qwen3 multi-candidate sweep -/

/-- The inner URL loop with a fixed language equals the flat pass over the
pairs `(lang, url)` for the same URLs. -/
theorem runInner_eq_flat (oracle : Option String → String → Resp)
    (lang : Option String) (urls : List String) (le : Option String) (r : Option Resp) :
    runInner oracle lang urls le r =
      sweepFlatGo oracle (urls.map fun url => (lang, url)) le r := by
  induction urls generalizing le r with
  | nil => rfl
  | cons url rest ih =>
    simp only [runInner, List.map_cons, sweepFlatGo, ih]

/-- A flat pass that raised keeps raising when more pairs are appended. -/
theorem sweepFlatGo_append_error (oracle : Option String → String → Resp)
    (xs ys : List (Option String × String)) (le : Option String) (r : Option Resp)
    (log : List (Option String × String)) (m : String)
    (hxs : sweepFlatGo oracle xs le r = (log, .error m)) :
    sweepFlatGo oracle (xs ++ ys) le r = (log, .error m) := by
  induction xs generalizing le r log with
  | nil => exact absurd hxs (by simp [sweepFlatGo])
  | cons p rest ih =>
    obtain ⟨lang, url⟩ := p
    simp only [List.cons_append, sweepFlatGo] at hxs ⊢
    by_cases h200 : ((oracle lang url).status == 200) = true
    · simp only [h200, if_true] at hxs ⊢
      exact absurd hxs (by simp)
    · rw [Bool.not_eq_true] at h200
      simp only [h200, Bool.false_eq_true, if_false] at hxs ⊢
      by_cases hce : isClientErrorStatus (oracle lang url).status = true
      · simp only [hce, if_true, List.append_eq] at hxs ⊢
        rcases hrec : sweepFlatGo oracle rest (some (oracle lang url).body)
            (some (oracle lang url)) with ⟨log1, out1⟩
        rw [hrec] at hxs
        cases out1 with
        | error m1 =>
          simp only [Prod.mk.injEq, Except.error.injEq] at hxs
          obtain ⟨hlog, hm⟩ := hxs
          subst hm
          rw [ih _ _ _ hrec]
          simp [hlog]
        | ok s => exact absurd hxs (by simp)
      · rw [Bool.not_eq_true] at hce
        simp only [hce, Bool.false_eq_true, if_false] at hxs ⊢
        exact hxs

/-- A flat pass that stopped on a 200 response is unchanged by appending
more pairs (given the incoming response is not a 200). -/
theorem sweepFlatGo_append_ok200 (oracle : Option String → String → Resp)
    (xs ys : List (Option String × String)) (le : Option String) (r : Option Resp)
    (log : List (Option String × String)) (r2 : Option Resp) (le2 : Option String)
    (hr : respIs200 r = false)
    (hxs : sweepFlatGo oracle xs le r = (log, .ok (r2, le2)))
    (h2 : respIs200 r2 = true) :
    sweepFlatGo oracle (xs ++ ys) le r = (log, .ok (r2, le2)) := by
  induction xs generalizing le r log with
  | nil =>
    simp only [sweepFlatGo, Prod.mk.injEq, Except.ok.injEq] at hxs
    rw [← hxs.2.1, hr] at h2
    cases h2
  | cons p rest ih =>
    obtain ⟨lang, url⟩ := p
    simp only [List.cons_append, sweepFlatGo] at hxs ⊢
    by_cases h200 : ((oracle lang url).status == 200) = true
    · simp only [h200, if_true] at hxs ⊢; exact hxs
    · rw [Bool.not_eq_true] at h200
      simp only [h200, Bool.false_eq_true, if_false] at hxs ⊢
      by_cases hce : isClientErrorStatus (oracle lang url).status = true
      · simp only [hce, if_true, List.append_eq] at hxs ⊢
        rcases hrec : sweepFlatGo oracle rest (some (oracle lang url).body)
            (some (oracle lang url)) with ⟨log1, out1⟩
        rw [hrec] at hxs
        cases out1 with
        | error m1 => exact absurd hxs (by simp)
        | ok s =>
          simp only [Prod.mk.injEq, Except.ok.injEq] at hxs
          obtain ⟨hlog, hs⟩ := hxs
          subst hs
          rw [ih _ _ _ (by simp [respIs200, h200]) hrec]
          simp [hlog]
      · rw [Bool.not_eq_true] at hce
        simp only [hce, Bool.false_eq_true, if_false] at hxs ⊢
        exact absurd hxs (by simp)

/-- A flat pass that exhausted its pairs without a 200 continues into the
appended pairs from its final `(response, last_error)` state. -/
theorem sweepFlatGo_append_exhausted (oracle : Option String → String → Resp)
    (xs ys : List (Option String × String)) (le : Option String) (r : Option Resp)
    (log : List (Option String × String)) (r2 : Option Resp) (le2 : Option String)
    (hr : respIs200 r = false)
    (hxs : sweepFlatGo oracle xs le r = (log, .ok (r2, le2)))
    (h2 : respIs200 r2 = false) :
    sweepFlatGo oracle (xs ++ ys) le r =
      (log ++ (sweepFlatGo oracle ys le2 r2).1, (sweepFlatGo oracle ys le2 r2).2) := by
  induction xs generalizing le r log with
  | nil =>
    simp only [sweepFlatGo, Prod.mk.injEq, Except.ok.injEq] at hxs
    obtain ⟨hlog, hr2, hle2⟩ := hxs
    subst hlog; subst hr2; subst hle2
    simp
  | cons p rest ih =>
    obtain ⟨lang, url⟩ := p
    simp only [List.cons_append, sweepFlatGo] at hxs ⊢
    by_cases h200 : ((oracle lang url).status == 200) = true
    · simp only [h200, if_true, Prod.mk.injEq, Except.ok.injEq] at hxs
      obtain ⟨hlog, hr2, hle2⟩ := hxs
      rw [← hr2] at h2
      simp [respIs200, h200] at h2
    · rw [Bool.not_eq_true] at h200
      simp only [h200, Bool.false_eq_true, if_false] at hxs ⊢
      by_cases hce : isClientErrorStatus (oracle lang url).status = true
      · simp only [hce, if_true, List.append_eq] at hxs ⊢
        rcases hrec : sweepFlatGo oracle rest (some (oracle lang url).body)
            (some (oracle lang url)) with ⟨log1, out1⟩
        rw [hrec] at hxs
        cases out1 with
        | error m1 => exact absurd hxs (by simp)
        | ok s =>
          simp only [Prod.mk.injEq, Except.ok.injEq] at hxs
          obtain ⟨hlog, hs⟩ := hxs
          subst hs
          rw [ih _ _ _ (by simp [respIs200, h200]) hrec]
          simp [← hlog]
      · rw [Bool.not_eq_true] at hce
        simp only [hce, Bool.false_eq_true, if_false] at hxs ⊢
        exact absurd hxs (by simp)

/-- The nested loops of the source equal the flat pass over all
`(language, endpoint)` pairs, languages outer, endpoints inner. -/
theorem runOuter_eq_flat (oracle : Option String → String → Resp) (urls : List String)
    (langs : List (Option String)) (le : Option String) (r : Option Resp)
    (hr : respIs200 r = false) :
    runOuter oracle urls langs le r = sweepFlatGo oracle (allPairs langs urls) le r := by
  induction langs generalizing le r with
  | nil => rfl
  | cons lang rest ih =>
    have hsplit : allPairs (lang :: rest) urls =
        (urls.map fun url => (lang, url)) ++ allPairs rest urls := by
      simp [allPairs]
    rw [hsplit]
    simp only [runOuter, runInner_eq_flat]
    rcases hInner : sweepFlatGo oracle (urls.map fun url => (lang, url)) le r with ⟨log, out⟩
    cases out with
    | error m => rw [sweepFlatGo_append_error oracle _ _ _ _ _ _ hInner]
    | ok s =>
      obtain ⟨r2, le2⟩ := s
      by_cases h2 : respIs200 r2 = true
      · simp only [h2, if_true]
        rw [sweepFlatGo_append_ok200 oracle _ _ _ _ _ _ _ hr hInner h2]
      · rw [Bool.not_eq_true] at h2
        simp only [h2, Bool.false_eq_true, if_false]
        rw [sweepFlatGo_append_exhausted oracle _ _ _ _ _ _ _ hr hInner h2, ih _ _ h2]

/-- **C1.** The Qwen3 sweep tries language candidates outer and endpoint
candidates inner, in declared order; the first HTTP 200 stops the sweep and is
used; 400/404/405/422 responses are recorded as the last client error and the
sweep continues; any other non-200 status aborts immediately; with no 200 the
last recorded client-error body is surfaced, else the last raw error. The
first conjunct is the refinement of the source's nested loops into the flat
spec-side sweep; the remaining conjuncts settle the three response-pattern
scenarios (404,404,200 → three requests, in order, third result returned;
all client errors → last client-error body surfaced; 404 then 500 → abort
after exactly two requests, surfacing the 500). -/
theorem C1_qwen_candidate_sweep :
    (∀ (oracle : Option String → String → Resp) (lang_candidates urls : List String),
        qwenSweep oracle lang_candidates urls = qwenSweepSpec oracle lang_candidates urls) ∧
    (∀ (oracle : Option String → String → Resp),
        oracle none "u1" = ⟨404, "e1"⟩ → oracle none "u2" = ⟨404, "e2"⟩ →
        oracle none "u3" = ⟨200, "okbody"⟩ →
        qwenSweep oracle [] ["u1", "u2", "u3"] =
          ([(none, "u1"), (none, "u2"), (none, "u3")], .ok ⟨200, "okbody"⟩)) ∧
    (∀ (oracle : Option String → String → Resp),
        oracle none "u1" = ⟨404, "e1"⟩ → oracle none "u2" = ⟨422, "e2"⟩ →
        oracle none "u3" = ⟨405, "e3"⟩ →
        qwenSweep oracle [] ["u1", "u2", "u3"] =
          ([(none, "u1"), (none, "u2"), (none, "u3")], .error (apiFailMsg 405 "e3"))) ∧
    (∀ (oracle : Option String → String → Resp),
        oracle none "u1" = ⟨404, "e1"⟩ → oracle none "u2" = ⟨500, "boom"⟩ →
        qwenSweep oracle [] ["u1", "u2", "u3"] =
          ([(none, "u1"), (none, "u2")], .error (apiFailMsg 500 "boom"))) := by
  refine ⟨?_, ?_, ?_, ?_⟩
  · intro oracle lcs urls
    have h := runOuter_eq_flat oracle urls
      (if lcs.isEmpty then [none] else lcs.map some) none none rfl
    simp only [qwenSweep, qwenSweepSpec]
    rw [h]
  · intro oracle h1 h2 h3
    simp [qwenSweep, runOuter, runInner, respIs200, isClientErrorStatus, h1, h2, h3]
  · intro oracle h1 h2 h3
    simp [qwenSweep, runOuter, runInner, respIs200, isClientErrorStatus, h1, h2, h3]
  · intro oracle h1 h2
    simp [qwenSweep, runOuter, runInner, respIs200, isClientErrorStatus, h1, h2]

/-- Witness for C1 at the three concrete oracles. -/
theorem C1_qwen_candidate_sweep_witness :
    qwenSweep oracle404x2 [] ["u1", "u2", "u3"] =
      ([(none, "u1"), (none, "u2"), (none, "u3")], .ok ⟨200, "okbody"⟩) ∧
    qwenSweep oracleAllClient [] ["u1", "u2", "u3"] =
      ([(none, "u1"), (none, "u2"), (none, "u3")], .error (apiFailMsg 405 "e3")) ∧
    qwenSweep oracleAbort [] ["u1", "u2", "u3"] =
      ([(none, "u1"), (none, "u2")], .error (apiFailMsg 500 "boom")) :=
  ⟨C1_qwen_candidate_sweep.2.1 oracle404x2 rfl rfl rfl,
   C1_qwen_candidate_sweep.2.2.1 oracleAllClient rfl rfl rfl,
   C1_qwen_candidate_sweep.2.2.2 oracleAbort rfl rfl⟩

/-! ### C2, C3, C4 — the audio normalizer -/

/-- **C2.** `convert_to_wav_bytes` attempts the decode strategies in fixed
order — soundfile, then librosa, then the ffmpeg subprocess — each later
stage only if the prior stage raised; it fails only when all three have
raised, and then with the combined error carrying all three strategy
messages. -/
theorem C2_decode_fallback_order (env : DecodeEnv) (bytes : List Nat)
    (hav : env.sfAvailable = true) :
    (∀ arr sr, env.sfRead bytes = .ok (arr, sr) →
        convert_to_wav_bytes env bytes = ([.soundfileS], .ok (postDecode arr sr))) ∧
    (∀ e1 arr sr, env.sfRead bytes = .error e1 → env.librosaLoad bytes = .ok (arr, sr) →
        convert_to_wav_bytes env bytes =
          ([.soundfileS, .librosaS], .ok (postDecode arr sr))) ∧
    (∀ e1 e2 wav, env.sfRead bytes = .error e1 → env.librosaLoad bytes = .error e2 →
        env.ffmpegRun bytes = .ok wav →
        convert_to_wav_bytes env bytes = ([.soundfileS, .librosaS, .ffmpegS], .ok wav)) ∧
    (∀ e1 e2 e3, env.sfRead bytes = .error e1 → env.librosaLoad bytes = .error e2 →
        env.ffmpegRun bytes = .error e3 →
        convert_to_wav_bytes env bytes =
          ([.soundfileS, .librosaS, .ffmpegS], .error (convFailMsg e1 e2 e3))) ∧
    (∀ log e, convert_to_wav_bytes env bytes = (log, .error e) →
        ∃ e1 e2 e3, env.sfRead bytes = .error e1 ∧ env.librosaLoad bytes = .error e2 ∧
          env.ffmpegRun bytes = .error e3 ∧ e = convFailMsg e1 e2 e3 ∧
          log = [.soundfileS, .librosaS, .ffmpegS]) := by
  refine ⟨?_, ?_, ?_, ?_, ?_⟩
  · intro arr sr h1
    simp [convert_to_wav_bytes, hav, h1]
  · intro e1 arr sr h1 h2
    simp [convert_to_wav_bytes, hav, h1, h2]
  · intro e1 e2 wav h1 h2 h3
    simp [convert_to_wav_bytes, hav, h1, h2, h3]
  · intro e1 e2 e3 h1 h2 h3
    simp [convert_to_wav_bytes, hav, h1, h2, h3]
  · intro log e hconv
    simp only [convert_to_wav_bytes, hav, not_true, if_neg, ite_false] at hconv
    cases h1 : env.sfRead bytes with
    | ok v =>
      rw [h1] at hconv
      exact absurd hconv (by simp)
    | error e1 =>
      rw [h1] at hconv
      cases h2 : env.librosaLoad bytes with
      | ok v =>
        rw [h2] at hconv
        exact absurd hconv (by simp)
      | error e2 =>
        rw [h2] at hconv
        cases h3 : env.ffmpegRun bytes with
        | ok wav =>
          rw [h3] at hconv
          exact absurd hconv (by simp)
        | error e3 =>
          rw [h3] at hconv
          simp only [Prod.mk.injEq, Except.error.injEq] at hconv
          exact ⟨e1, e2, e3, rfl, rfl, rfl, hconv.2.symm, hconv.1.symm⟩

/-- Witness for C2: all three strategies fail on a concrete input. -/
theorem C2_decode_fallback_order_witness :
    convert_to_wav_bytes envAllFail [1, 2] =
      ([.soundfileS, .librosaS, .ffmpegS], .error (convFailMsg "sf-fail" "lr-fail" "ff-fail")) :=
  (C2_decode_fallback_order envAllFail [1, 2] rfl).2.2.2.1 "sf-fail" "lr-fail" "ff-fail"
    rfl rfl rfl

/-- Helper: an integer already in int16 range is unchanged by the wrap. -/
theorem int16wrap_eq_self (n : ℤ) (hlo : -32768 ≤ n) (hhi : n ≤ 32767) :
    int16wrap n = n := by
  unfold int16wrap
  have h1 : 0 ≤ n + 32768 := by linarith
  have h2 : n + 32768 < 65536 := by linarith
  rw [Int.emod_eq_of_lt h1 h2]
  ring

/-- Helper: truncation of `q * 32767` is within int16 range for `q ∈ [-1,1]`. -/
theorem truncToZero_bound (q : ℚ) (hlo : -1 ≤ q) (hhi : q ≤ 1) :
    -32767 ≤ truncToZero (q * 32767) ∧ truncToZero (q * 32767) ≤ 32767 := by
  unfold truncToZero
  by_cases h : 0 ≤ q * 32767
  · rw [if_pos h]
    constructor
    · have : (0 : ℤ) ≤ ⌊q * 32767⌋ := Int.le_floor.mpr (by exact_mod_cast h)
      linarith
    · have hle : q * 32767 ≤ ((32767 : ℤ) : ℚ) := by push_cast; nlinarith
      have := Int.floor_mono hle
      simpa using this
  · rw [if_neg h]
    push_neg at h
    constructor
    · have hge : ((-32767 : ℤ) : ℚ) ≤ q * 32767 := by push_cast; nlinarith
      have := Int.ceil_mono hge
      simpa using this
    · have : ⌈q * 32767⌉ ≤ 0 := Int.ceil_le.mpr (by exact_mod_cast h.le)
      linarith

/-- **C3.** For a decode delivered by stage 1 or stage 2, the normalizer
collapses a multi-channel array to mono by per-frame channel averaging,
converts samples to int16 by multiplying by 32767 and truncating (exactly
that, without wrap-around, whenever the sample is in `[-1,1]`), and encodes a
WAV whose header declares 1 channel, a 2-byte sample width and the detected
positive sample rate. -/
theorem C3_post_decode_normalization (arr : NpArray) (sr : Nat) (hsr : 0 < sr) :
    (postDecode arr sr).nchannels = 1 ∧
    (postDecode arr sr).sampwidth = 2 ∧
    (postDecode arr sr).framerate = sr ∧
    0 < (postDecode arr sr).framerate ∧
    (postDecode arr sr).samples =
      (collapseMono arr).map (fun q => int16wrap (truncToZero (q * 32767))) ∧
    (∀ rows, arr = .twoD rows → collapseMono arr = rows.map rowMean) ∧
    (∀ q : ℚ, -1 ≤ q → q ≤ 1 →
        int16wrap (truncToZero (q * 32767)) = truncToZero (q * 32767)) ∧
    (∀ env bytes, env.sfAvailable = true → env.sfRead bytes = .ok (arr, sr) →
        (convert_to_wav_bytes env bytes).2 = .ok (postDecode arr sr)) ∧
    (∀ env bytes e1, env.sfAvailable = true → env.sfRead bytes = .error e1 →
        env.librosaLoad bytes = .ok (arr, sr) →
        (convert_to_wav_bytes env bytes).2 = .ok (postDecode arr sr)) := by
  refine ⟨rfl, rfl, rfl, hsr, rfl, ?_, ?_, ?_, ?_⟩
  · intro rows hrows
    rw [hrows]; rfl
  · intro q h1 h2
    obtain ⟨hlo, hhi⟩ := truncToZero_bound q h1 h2
    exact int16wrap_eq_self _ (by linarith) hhi
  · intro env bytes hav h1
    simp [convert_to_wav_bytes, hav, h1]
  · intro env bytes e1 hav h1 h2
    simp [convert_to_wav_bytes, hav, h1, h2]

/-- Witness for C3: soundfile decodes to a concrete stereo array at 16 kHz;
the WAV out has 1 channel, 16-bit width, rate 16000 and samples `[0, 16383]`
(means `0` and `1/2`, scaled and truncated). -/
theorem C3_post_decode_normalization_witness :
    (convert_to_wav_bytes envSfStereo [1]).2 =
      .ok (postDecode (.twoD [[1/2, -1/2], [1, 0]]) 16000) ∧
    postDecode (.twoD [[1/2, -1/2], [1, 0]]) 16000 =
      { nchannels := 1, sampwidth := 2, framerate := 16000, samples := [0, 16383] } := by
  constructor
  · exact (C3_post_decode_normalization (.twoD [[1/2, -1/2], [1, 0]]) 16000
      (by decide)).2.2.2.2.2.2.2.1 envSfStereo [1] rfl rfl
  · have hmean1 : rowMean [1/2, -1/2] = (0 : ℚ) := by norm_num [rowMean]
    have hmean2 : rowMean [1, 0] = (1/2 : ℚ) := by norm_num [rowMean]
    have hhalf : ⌊(1/2 : ℚ)⌋ = 0 := by
      rw [Int.floor_eq_zero_iff]
      norm_num [Set.mem_Ico]
    have ht1 : truncToZero ((0 : ℚ) * 32767) = 0 := by
      rw [zero_mul, truncToZero, if_pos le_rfl, Int.floor_zero]
    have ht2 : truncToZero ((1/2 : ℚ) * 32767) = 16383 := by
      rw [truncToZero, if_pos (by norm_num)]
      rw [show (1/2 : ℚ) * 32767 = ((16383 : ℤ) : ℚ) + (1/2 : ℚ) by push_cast; ring]
      rw [Int.floor_int_add, hhalf]
      norm_num
    simp only [postDecode, wav_bytes_from_array, collapseMono, npMeanAxis1,
      astype_int16, List.map_cons, List.map_nil, hmean1, hmean2, ht1, ht2]
    decide

/-- **C4 (counterexample).** `convert_to_wav_bytes` has no empty-input fast
path: on the zero-length input (with every strategy failing) all three decode
strategies are attempted — the attempt list is not empty, and the surfaced
error is the combined three-strategy message, not an `EmptyAudio` failure. -/
theorem C4_counterexample_empty_runs_decoders :
    convert_to_wav_bytes envAllFail [] =
      ([.soundfileS, .librosaS, .ffmpegS],
        .error (convFailMsg "sf-fail" "lr-fail" "ff-fail")) ∧
    ([Strategy.soundfileS, .librosaS, .ffmpegS] : List Strategy) ≠ [] := by
  exact ⟨rfl, by decide⟩

/-- **C4 (amended).** The fail-fast guard for empty input lives in the upload
route, not in `convert_to_wav_bytes`: `transcribe_upload` rejects zero-length
contents with HTTP 400 "Uploaded file is empty" before invoking the adapter
(so no decoder runs on an empty upload), while `convert_to_wav_bytes` itself,
called directly on empty bytes, attempts all three strategies and fails with
the combined conversion error. -/
theorem C4_empty_input_guard (env : DecodeEnv) (e1 e2 e3 : String)
    (hav : env.sfAvailable = true)
    (h1 : env.sfRead [] = .error e1) (h2 : env.librosaLoad [] = .error e2)
    (h3 : env.ffmpegRun [] = .error e3) :
    (∀ (α : Type) (adapter : List Nat → List α × Except String String),
        transcribe_upload_model [] adapter = ([], .error (400, "Uploaded file is empty"))) ∧
    convert_to_wav_bytes env [] =
      ([.soundfileS, .librosaS, .ffmpegS], .error (convFailMsg e1 e2 e3)) := by
  constructor
  · intro α adapter; rfl
  · simp [convert_to_wav_bytes, hav, h1, h2, h3]

/-- Witness for C4's amended claim at the all-failing environment. -/
theorem C4_empty_input_guard_witness :
    transcribe_upload_model ([] : List Nat)
        (fun _ => (([] : List Strategy), .error "never")) =
      ([], .error (400, "Uploaded file is empty")) ∧
    convert_to_wav_bytes envAllFail [] =
      ([.soundfileS, .librosaS, .ffmpegS],
        .error (convFailMsg "sf-fail" "lr-fail" "ff-fail")) :=
  ⟨(C4_empty_input_guard envAllFail "sf-fail" "lr-fail" "ff-fail" rfl rfl rfl rfl).1
      Strategy (fun _ => ([], .error "never")),
   (C4_empty_input_guard envAllFail "sf-fail" "lr-fail" "ff-fail" rfl rfl rfl rfl).2⟩

/-- Witness for C7 at concrete inputs: the table clause at `"EN"`, the
underscore clause at `"xx_Yyyy"`, and the pass-through clause at `"abc"`. -/
theorem C7_normalize_lang_code_witness :
    normalize_lang_code (some "EN") = some "eng" ∧
    normalize_lang_code (some "abc") = some "abc" := by
  constructor
  · exact (C7_normalize_lang_code "EN" (by decide) (by decide)).2.2.2.1 "eng" (by decide)
  · exact (C7_normalize_lang_code "abc" (by decide) (by decide)).2.2.2.2.2 (by decide) (by decide)

/-! ### C5 — JSON response parsing -/

/-- **C5 (counterexample).** The claimed parse policy fails on the code in
two places: the body `{"status": "ok"}` does NOT fail with a
malformed-response error in the OmniLingual/Qwen3 parser — the in-order scan
returns the non-empty string `"ok"`; and the Chunkformer parser does not
scan at all — `{"transcript": "hi"}` yields the empty-string default, not
`"hi"`. -/
theorem C5_counterexample_parse :
    extractTextOmniQwen [("status", .jstr "ok")] = .ok "ok" ∧
    chunkformerParse [("transcript", .jstr "hi")] = .ok "" := by
  exact ⟨rfl, rfl⟩

/-- **C5 (amended).** The text-then-scan-then-fail policy is implemented by
the OmniLingual and Qwen3 adapters only: a `text` field yields its trimmed
value; otherwise the first non-empty string-typed field value (in encounter
order) is returned — so `{"transcript": "hi"}` yields `"hi"` and
`{"status": "ok"}` yields `"ok"` — and only a body with no non-empty
string-typed field at all fails, with the body-carrying message. The
Chunkformer adapter never scans: when `status == "error"` it raises
`API error: <message>` (the `message` value str-rendered, defaulting to
`Unknown error`); otherwise it returns the `text` field trimmed when present
and the empty-string default when absent. -/
theorem C5_response_parsing (result : JObj) (s : String) :
    (result.lookup "text" = some (.jstr s) →
        extractTextOmniQwen result = .ok (pyStrip s)) ∧
    (result.lookup "text" = none → scanFirstString result = some s →
        extractTextOmniQwen result = .ok s) ∧
    (result.lookup "text" = none → scanFirstString result = none →
        extractTextOmniQwen result = .error (noTextMsg result)) ∧
    extractTextOmniQwen [("text", .jstr "hello")] = .ok "hello" ∧
    extractTextOmniQwen [("transcript", .jstr "hi")] = .ok "hi" ∧
    extractTextOmniQwen [("status", .jstr "ok")] = .ok "ok" ∧
    extractTextOmniQwen [("status", .jstr ""), ("n", .jnum 1)] =
      .error (noTextMsg [("status", .jstr ""), ("n", .jnum 1)]) ∧
    (result.lookup "status" = some (.jstr "error") →
        chunkformerParse result = .error (chunkErrMsg result)) ∧
    (result.lookup "status" ≠ some (.jstr "error") →
        result.lookup "text" = some (.jstr s) →
        chunkformerParse result = .ok (pyStrip s)) ∧
    (result.lookup "status" ≠ some (.jstr "error") → result.lookup "text" = none →
        chunkformerParse result = .ok "") ∧
    chunkformerParse [("transcript", .jstr "hi")] = .ok "" ∧
    chunkformerParse [("status", .jstr "error"), ("message", .jstr "bad")] =
      .error "API error: bad" ∧
    chunkformerParse [("status", .jstr "error")] = .error "API error: Unknown error" := by
  refine ⟨?_, ?_, ?_, rfl, rfl, rfl, rfl, ?_, ?_, ?_, rfl, rfl, rfl⟩
  · intro h
    simp [extractTextOmniQwen, h]
  · intro h hscan
    simp [extractTextOmniQwen, h, hscan]
  · intro h hscan
    simp [extractTextOmniQwen, h, hscan]
  · intro hstatus
    simp [chunkformerParse, hstatus]
  · intro hstatus htext
    simp [chunkformerParse, hstatus, htext]
  · intro hstatus htext
    simp [chunkformerParse, hstatus, htext]
    rfl

/-- Witness for C5 at concrete bodies exercising each hypothesized clause. -/
theorem C5_response_parsing_witness :
    extractTextOmniQwen [("text", .jstr " hello ")] = .ok (pyStrip " hello ") ∧
    extractTextOmniQwen [("note", .jnull), ("transcript", .jstr "hi")] = .ok "hi" ∧
    extractTextOmniQwen [("ok", .jbool true)] = .error (noTextMsg [("ok", .jbool true)]) ∧
    chunkformerParse [("status", .jstr "error"), ("message", .jstr "oops")] =
      .error (chunkErrMsg [("status", .jstr "error"), ("message", .jstr "oops")]) ∧
    chunkformerParse [("status", .jstr "ok"), ("text", .jstr " hi ")] = .ok (pyStrip " hi ") ∧
    chunkformerParse [("x", .jnum 3)] = .ok "" := by
  refine ⟨?_, ?_, ?_, ?_, ?_, ?_⟩
  · exact (C5_response_parsing [("text", .jstr " hello ")] " hello ").1 rfl
  · exact (C5_response_parsing [("note", .jnull), ("transcript", .jstr "hi")] "hi").2.1 rfl rfl
  · exact (C5_response_parsing [("ok", .jbool true)] "").2.2.1 rfl rfl
  · exact (C5_response_parsing [("status", .jstr "error"), ("message", .jstr "oops")]
      "").2.2.2.2.2.2.2.1 rfl
  · exact (C5_response_parsing [("status", .jstr "ok"), ("text", .jstr " hi ")]
      " hi ").2.2.2.2.2.2.2.2.1 (by decide) rfl
  · exact (C5_response_parsing [("x", .jnum 3)] "").2.2.2.2.2.2.2.2.2.1 (by decide) rfl

/-! ### C6 — task handling -/

/-- **C6.** With `task = "translate"` (or any task other than
`"transcribe"`), the Chunkformer, OmniLingual and Qwen3 adapters fail up
front with their unsupported-task error and issue no HTTP request, while the
WhisperJAX adapter proceeds and forwards the task field in its form data; no
adapter ignores the task parameter. -/
theorem C6_task_handling
    (denv : DecodeEnv) (http : HttpReq → Resp) (json : String → Option JObj)
    (endpoint : String) (urls : List String) (bytes : List Nat)
    (language : Option String) (rts : Bool) (extra : List (String × String))
    (task : String) (htask : task ≠ "transcribe") :
    chunkformerTranscribe denv http json endpoint bytes task rts =
      ([], .error "Chunkformer API only supports transcription, not translation") ∧
    omniTranscribe http json endpoint bytes task language =
      ([], .error "OmniLingual API only supports transcription, not translation") ∧
    qwenTranscribe denv http json urls bytes task language =
      ([], .error "Qwen3 API only supports transcription, not translation") ∧
    (whisperTranscribe http json endpoint bytes "translate" language extra).1 =
      [⟨endpoint, none, [("task", "translate"), ("return_timestamps", "false")] ++
        (match language with
          | some l => if l = "" then [] else [("language", l)]
          | none => []) ++ extra⟩] := by
  refine ⟨?_, ?_, ?_, ?_⟩
  · simp [chunkformerTranscribe, htask]
  · simp [omniTranscribe, htask]
  · simp [qwenTranscribe, htask]
  · simp only [whisperTranscribe]
    split
    · rfl
    · split
      · rfl
      · split <;> rfl

/-- Witness for C6 at `task = "translate"` with concrete environments. -/
theorem C6_task_handling_witness :
    chunkformerTranscribe envAllFail httpOk jsonNone "e" [1] "translate" false =
      ([], .error "Chunkformer API only supports transcription, not translation") ∧
    omniTranscribe httpOk jsonNone "e" [1] "translate" none =
      ([], .error "OmniLingual API only supports transcription, not translation") ∧
    qwenTranscribe envAllFail httpOk jsonNone ["u"] [1] "translate" none =
      ([], .error "Qwen3 API only supports transcription, not translation") ∧
    (whisperTranscribe httpOk jsonNone "e" [1] "translate" none []).1 =
      [⟨"e", none, [("task", "translate"), ("return_timestamps", "false")]⟩] := by
  have h := C6_task_handling envAllFail httpOk jsonNone "e" ["u"] [1] none false []
    "translate" (by decide)
  exact ⟨h.1, h.2.1, h.2.2.1, by simpa using h.2.2.2⟩

/-! ### C9 — request timeouts -/

/-- **C9 (counterexample).** The WhisperJAX adapter's provider POST is issued
with `timeout=None` (whisper_jax.py line 45): on a concrete call it makes
exactly one request and that request's timeout is unbounded — refuting the
claim that every adapter posts with an explicit finite 60–120 s timeout. -/
theorem C9_counterexample_whisper_unbounded :
    ((whisperTranscribe httpOk jsonNone "http://e" [1] "transcribe" none []).1.map
        HttpReq.timeoutSec) = [none] := by
  rfl

/-- **C9 (amended).** Every provider POST of the Chunkformer, OmniLingual and
Qwen3 adapters carries an explicit finite timeout within 60–120 s (120, 60
and 120 seconds respectively); the WhisperJAX adapter alone posts with
`timeout=None`, i.e. unbounded. -/
theorem C9_request_timeouts
    (denv : DecodeEnv) (http : HttpReq → Resp) (json : String → Option JObj)
    (endpoint : String) (urls : List String) (bytes : List Nat)
    (language : Option String) (task : String) (rts : Bool)
    (extra : List (String × String)) :
    (∀ req ∈ (chunkformerTranscribe denv http json endpoint bytes task rts).1,
        req.timeoutSec = some 120 ∧ 60 ≤ 120 ∧ 120 ≤ 120) ∧
    (∀ req ∈ (omniTranscribe http json endpoint bytes task language).1,
        req.timeoutSec = some 60 ∧ 60 ≤ 60 ∧ 60 ≤ 120) ∧
    (∀ req ∈ (qwenTranscribe denv http json urls bytes task language).1,
        req.timeoutSec = some 120) ∧
    (∀ req ∈ (whisperTranscribe http json endpoint bytes task language extra).1,
        req.timeoutSec = none) := by
  refine ⟨?_, ?_, ?_, ?_⟩
  · intro req hreq
    refine ⟨?_, by norm_num, le_refl 120⟩
    simp only [chunkformerTranscribe] at hreq
    repeat' split at hreq
    all_goals simp only [List.mem_singleton, List.not_mem_nil] at hreq
    all_goals first
      | exact absurd hreq not_false
      | (subst hreq; rfl)
  · intro req hreq
    refine ⟨?_, le_refl 60, by norm_num⟩
    simp only [omniTranscribe] at hreq
    repeat' split at hreq
    all_goals simp only [List.mem_singleton, List.not_mem_nil] at hreq
    all_goals first
      | exact absurd hreq not_false
      | (subst hreq; rfl)
  · intro req hreq
    simp only [qwenTranscribe] at hreq
    repeat' split at hreq
    all_goals simp only [List.mem_singleton, List.not_mem_nil, List.mem_map] at hreq
    all_goals first
      | exact absurd hreq not_false
      | (obtain ⟨p, -, rfl⟩ := hreq; rfl)
  · intro req hreq
    simp only [whisperTranscribe] at hreq
    repeat' split at hreq
    all_goals simp only [List.mem_singleton, List.not_mem_nil] at hreq
    all_goals first
      | exact absurd hreq not_false
      | (subst hreq; rfl)

/-- Witness for C9's amended claim at concrete inputs: the one Chunkformer,
OmniLingual and Qwen3 request each carries its finite timeout; the WhisperJAX
request carries none. -/
theorem C9_request_timeouts_witness :
    (∀ req ∈ (chunkformerTranscribe envSfStereo httpOk jsonNone "e" [1] "transcribe" false).1,
        req.timeoutSec = some 120 ∧ 60 ≤ 120 ∧ 120 ≤ 120) ∧
    (∀ req ∈ (omniTranscribe httpOk jsonNone "e" [1] "transcribe" none).1,
        req.timeoutSec = some 60 ∧ 60 ≤ 60 ∧ 60 ≤ 120) ∧
    (∀ req ∈ (qwenTranscribe envSfStereo httpOk jsonNone ["u"] [1] "transcribe" none).1,
        req.timeoutSec = some 120) ∧
    (∀ req ∈ (whisperTranscribe httpOk jsonNone "e" [1] "transcribe" none []).1,
        req.timeoutSec = none) := by
  have h := C9_request_timeouts envSfStereo httpOk jsonNone "e" ["u"] [1] none
    "transcribe" false []
  exact ⟨h.1, h.2.1, h.2.2.1, h.2.2.2⟩

/-! ### C8, C10 — registry resolution and cache -/

/-- Helper: a lookup miss in the first list sends `lookup` to the appended
list. -/
theorem lookup_append_of_none {β : Type} (l1 l2 : List (String × β)) (a : String)
    (h : l1.lookup a = none) : (l1 ++ l2).lookup a = l2.lookup a := by
  induction l1 with
  | nil => rfl
  | cons kv rest ih =>
    obtain ⟨k, v⟩ := kv
    simp only [List.lookup, List.cons_append] at h ⊢
    by_cases hk : (a == k) = true
    · rw [hk] at h; simp at h
    · rw [Bool.not_eq_true] at hk
      rw [hk] at h ⊢
      simp only [Bool.false_eq_true, if_false] at h ⊢
      exact ih h

/-- Helper: a successfully constructed instance carries the sequence number
it was constructed with. -/
theorem get_model_ok_instId (cenv : CtorEnv) (name ep : String)
    (key : Option String) (nid : Nat) (m : AdapterInstance)
    (h : get_model cenv name ep key nid = .ok m) : m.instId = nid := by
  unfold get_model at h
  split at h
  · exact absurd h (by simp)
  · split at h
    · exact absurd h (by simp)
    · simp only [Except.ok.injEq] at h
      rw [← h]

/-- Helper: every branch of the per-name dispatch stamps the given sequence
number on a successfully constructed instance. -/
theorem constructFor_ok_instId (g : Getenv) (cenv : CtorEnv) (name : String)
    (nid : Nat) (m : AdapterInstance)
    (h : constructFor g cenv name nid = .ok m) : m.instId = nid := by
  unfold constructFor at h
  split_ifs at h <;> exact get_model_ok_instId cenv name _ _ nid m h

set_option maxRecDepth 8000 in
/-- **C8.** Resolution of a model name not in the static registry fails with
the unknown-model error, whose message appends the Python repr of the full
registered-name list (each registered name occurs in it literally); for a
registered name, the adapter is constructed on first request (stamped with
the current construction sequence number) and cached, and a second request
for the same name returns the identical instance with the state unchanged. -/
theorem C8_registry_resolution (g : Getenv) (cenv : CtorEnv) (name : String)
    (st : RegistryState) :
    (name ∉ MODEL_REGISTRY.map Prod.fst → st.cache.lookup name = none →
        get_model_for_request g cenv name st = (.error (unknownModelMsg name), st)) ∧
    (unknownModelMsg name = "Model '" ++ name ++ "' not found. Available models: " ++
        pyListRepr (MODEL_REGISTRY.map Prod.fst)) ∧
    (∀ k ∈ MODEL_REGISTRY.map Prod.fst, k.data <:+: (unknownModelMsg name).data) ∧
    (∀ m, st.cache.lookup name = none →
        constructFor g cenv name st.nextId = .ok m →
        get_model_for_request g cenv name st =
          (.ok m, ⟨st.cache ++ [(name, m)], st.nextId + 1⟩) ∧
        m.instId = st.nextId ∧
        (⟨st.cache ++ [(name, m)], st.nextId + 1⟩ : RegistryState).cache.lookup name =
          some m ∧
        get_model_for_request g cenv name ⟨st.cache ++ [(name, m)], st.nextId + 1⟩ =
          (.ok m, ⟨st.cache ++ [(name, m)], st.nextId + 1⟩)) := by
  refine ⟨?_, rfl, ?_, ?_⟩
  · intro hmem hcache
    simp only [ MODEL_REGISTRY, List.map_cons, List.map_nil, List.mem_cons,
      List.not_mem_nil, or_false, not_or] at hmem
    obtain ⟨h1, h2, h3, h4, h5⟩ := hmem
    have hlook : MODEL_REGISTRY.lookup name = none := by
      simp [ MODEL_REGISTRY, List.lookup, beq_eq_false_iff_ne.mpr h1,
        beq_eq_false_iff_ne.mpr h2, beq_eq_false_iff_ne.mpr h3,
        beq_eq_false_iff_ne.mpr h4, beq_eq_false_iff_ne.mpr h5]
    simp [get_model_for_request, hcache, constructFor, h1, h2, h3, h4, h5,
      get_model, hlook]
  · intro k hk
    have hmsg : (unknownModelMsg name).data =
        ("Model '" ++ name ++ "' not found. Available models: ").data ++
          (pyListRepr (MODEL_REGISTRY.map Prod.fst)).data := by
      simp only [unknownModelMsg]
      rw [String.data_append]
    rw [hmsg]
    have hsub : k.data <:+: (pyListRepr (MODEL_REGISTRY.map Prod.fst)).data := by
      simp only [ MODEL_REGISTRY, List.map_cons, List.map_nil, List.mem_cons,
        List.not_mem_nil, or_false] at hk
      rcases hk with rfl | rfl | rfl | rfl | rfl <;> decide
    exact hsub.trans (List.suffix_append _ _).isInfix
  · intro m hcache hok
    have hq : get_model_for_request g cenv name st =
        (.ok m, ⟨st.cache ++ [(name, m)], st.nextId + 1⟩) := by
      simp [get_model_for_request, hcache, hok]
    have hlook2 : (st.cache ++ [(name, m)]).lookup name = some m := by
      rw [lookup_append_of_none _ _ _ hcache]
      simp [List.lookup]
    refine ⟨hq, constructFor_ok_instId g cenv name st.nextId m hok, hlook2, ?_⟩
    simp [get_model_for_request, hlook2]

/-- Witness for C8: the unknown name `"nope"` fails with the enumerating
message and leaves the state unchanged; the registered name `"qwen3_1_7B"`
is constructed, cached and returned identically on the second request. -/
theorem C8_registry_resolution_witness :
    get_model_for_request genvEmpty cenvOk "nope" st0 =
      (.error (unknownModelMsg "nope"), st0) ∧
    (∀ k ∈ MODEL_REGISTRY.map Prod.fst, k.data <:+: (unknownModelMsg "nope").data) ∧
    get_model_for_request genvEmpty cenvOk "qwen3_1_7B" st0 =
      (.ok ⟨"Qwen3Model", "http://hanoi2.ucd.ie/asr_q3_1_7B", some "AIRRVie_api_key", 0⟩,
        ⟨[("qwen3_1_7B",
            ⟨"Qwen3Model", "http://hanoi2.ucd.ie/asr_q3_1_7B", some "AIRRVie_api_key", 0⟩)], 1⟩) ∧
    get_model_for_request genvEmpty cenvOk "qwen3_1_7B"
        ⟨[("qwen3_1_7B",
            ⟨"Qwen3Model", "http://hanoi2.ucd.ie/asr_q3_1_7B", some "AIRRVie_api_key", 0⟩)], 1⟩ =
      (.ok ⟨"Qwen3Model", "http://hanoi2.ucd.ie/asr_q3_1_7B", some "AIRRVie_api_key", 0⟩,
        ⟨[("qwen3_1_7B",
            ⟨"Qwen3Model", "http://hanoi2.ucd.ie/asr_q3_1_7B", some "AIRRVie_api_key", 0⟩)], 1⟩) := by
  have hu := (C8_registry_resolution genvEmpty cenvOk "nope" st0).1 (by decide) rfl
  have hk := (C8_registry_resolution genvEmpty cenvOk "nope" st0).2.2.1
  have hreg := (C8_registry_resolution genvEmpty cenvOk "qwen3_1_7B" st0).2.2.2
    ⟨"Qwen3Model", "http://hanoi2.ucd.ie/asr_q3_1_7B", some "AIRRVie_api_key", 0⟩ rfl rfl
  exact ⟨hu, hk, hreg.1, hreg.2.2.2⟩

/-- **C10.** When constructing the adapter for a model name raises,
`get_model_for_request` propagates the error and leaves the state (in
particular the cache) unchanged, so no entry is added for that name and a
later request for the same name re-attempts construction. -/
theorem C10_cache_atomic_on_ctor_failure (g : Getenv) (cenv : CtorEnv)
    (name : String) (st : RegistryState) (msg : String)
    (hcache : st.cache.lookup name = none)
    (hfail : constructFor g cenv name st.nextId = .error msg) :
    get_model_for_request g cenv name st = (.error msg, st) ∧
    (get_model_for_request g cenv name st).2.cache.lookup name = none := by
  have h : get_model_for_request g cenv name st = (.error msg, st) := by
    simp [get_model_for_request, hcache, hfail]
  exact ⟨h, by rw [h]; exact hcache⟩

/-- Witness for C10: with every constructor raising `"boom"`, resolving
`"chunkformer"` from the empty cache propagates the error and leaves the
state unchanged. -/
theorem C10_cache_atomic_on_ctor_failure_witness :
    get_model_for_request genvEmpty cenvBoom "chunkformer" st0 = (.error "boom", st0) :=
  (C10_cache_atomic_on_ctor_failure genvEmpty cenvBoom "chunkformer" st0 "boom"
    rfl rfl).1

end AsrUI
